import Mathlib

/-!
# Verification of `heatmap.py`

A shallow embedding in Lean 4 of the heat map generation script
(`src/heatmap.py`): the GeoJSON building parser, the city boundary
resolver, and the map assembly pipeline, together with theorems about
their behaviour.

Modelling conventions:
* Python dictionaries read from JSON are projected to the fields the
  script actually accesses.
* JSON numbers are modelled exactly as rationals (`ℚ`); the script does
  no arithmetic on coordinates, and the single arithmetic operation on
  weights (`max_weight * 0.4`) is modelled exactly.
* A raised-and-unhandled Python exception is modelled by `Option`
  (`none` = the exception escapes); a caught exception branch is an
  explicit `Except.error` input.
-/

set_option autoImplicit false

namespace Heatmap

/-- A JSON scalar value as produced by Python's `json.load` for a property
value.  Non-scalar property values (arrays, objects) never occur in the
claims under study and are outside the model. -/
inductive JVal where
  | jnull
  | jbool (b : Bool)
  | jnum (q : ℚ)
  | jstr (s : String)
  deriving DecidableEq

/-- Python truthiness (`if building_levels:`) of a JSON scalar:
`None`, `False`, `0`, `0.0` and `""` are falsy, everything else truthy. -/
def pyTruthy : JVal → Bool
  | JVal.jnull => false
  | JVal.jbool b => b
  | JVal.jnum q => q != 0
  | JVal.jstr s => s != ""

/-- One digit character `0`-`9`. -/
def isPyDigit (c : Char) : Bool := '0' ≤ c && c ≤ '9'

/-- Numeric value of a digit string, most significant digit first. -/
def digitsToNat (cs : List Char) : ℕ :=
  cs.foldl (fun acc c => 10 * acc + (c.toNat - '0'.toNat)) 0

/-- Split a character list on underscores (Python's digit-group separator). -/
def splitUnderscores : List Char → List (List Char)
  | [] => [[]]
  | c :: rest =>
    if c = '_' then [] :: splitUnderscores rest
    else
      match splitUnderscores rest with
      | [] => [[c]]
      | g :: gs => (c :: g) :: gs

/-- ASCII whitespace, as stripped by Python's `int(str)`. -/
def isPySpace (c : Char) : Bool :=
  c = ' ' || c = '\t' || c = '\n' || c = '\r' || c = '\x0b' || c = '\x0c'

/-- Models Python's `int(s)` on a string: surrounding whitespace is
stripped, then an optional sign followed by base-10 digits, with single
underscores allowed between digit groups.  `none` models a raised
`ValueError`.  (Non-ASCII digits and whitespace accepted by CPython are
outside the model.) -/
def pyIntOfString (s : String) : Option ℤ :=
  let t := ((s.toList.dropWhile isPySpace).reverse.dropWhile isPySpace).reverse
  let (sign, body) :=
    match t with
    | '+' :: rest => ((1 : ℤ), rest)
    | '-' :: rest => ((-1 : ℤ), rest)
    | cs => ((1 : ℤ), cs)
  if body ≠ [] ∧ (splitUnderscores body).all (fun g => g ≠ [] ∧ g.all isPyDigit) then
    some (sign * digitsToNat (body.filter (fun c => c ≠ '_')))
  else
    none

/-- Truncation of a rational toward zero, as Python's `int(float)`. -/
def ratTrunc (q : ℚ) : ℤ := Int.tdiv q.num q.den

/-- Models Python's `int(x)` on a JSON scalar.  `none` models a raised
`ValueError` or `TypeError` (both caught by the script). -/
def pyInt : JVal → Option ℤ
  | JVal.jnull => none
  | JVal.jbool b => some (if b then 1 else 0)
  | JVal.jnum q => some (ratTrunc q)
  | JVal.jstr s => pyIntOfString s

/-- A GeoJSON geometry object, projected to the two keys the script reads:
`geometry.get('type')` and `geometry['coordinates']`.  `coordinates = none`
models a geometry dictionary without a `coordinates` key. -/
structure Geometry where
  type : Option String
  coordinates : Option (List ℚ)
  deriving DecidableEq

/-- A GeoJSON feature, projected to what `parse_geojson_buildings` reads:
`properties.get('building:levels')` (with a missing `properties` dictionary
or a missing/null key both giving `none`, as Python's `.get`), and the
`geometry` value (`none` = key missing, in which case the script substitutes
`{}`). -/
structure Feature where
  levels : Option JVal
  geometry : Option Geometry
  deriving DecidableEq

/-- The floor count extracted from the `building:levels` property value,
embedding lines 30-38 of `heatmap.py`:
`if building_levels: try: floors = int(building_levels) except: floors = 1
else: floors = 1`. -/
def floorsOf (building_levels : Option JVal) : ℤ :=
  match building_levels with
  | none => 1
  | some v =>
    if pyTruthy v then
      match pyInt v with
      | some n => n
      | none => 1
    else 1

/-- One parsed building: the script appends
`[latitude, longitude, floors * 10]`. -/
structure BuildingPoint where
  latitude : ℚ
  longitude : ℚ
  weight : ℤ
  deriving DecidableEq

/-- Embedding of `parse_geojson_buildings` (lines 18-43 of `heatmap.py`),
after `json.load` succeeded, as a function of the feature list.  A feature
is kept when `geometry.get('type') == 'Point' and 'coordinates' in geometry`;
the coordinate pair is unpacked as `longitude, latitude = geometry['coordinates']`,
which raises (modelled by `none`) when the coordinates array does not have
exactly two elements; kept features contribute
`[latitude, longitude, floors * 10]` in input order. -/
def parse_geojson_buildings : List Feature → Option (List BuildingPoint)
  | [] => some []
  | f :: fs =>
    let g := f.geometry.getD { type := none, coordinates := none }
    match g.type, g.coordinates with
    | some t, some cs =>
      if t = "Point" then
        match cs with
        | [lon, lat] =>
          (parse_geojson_buildings fs).map
            (fun rest => { latitude := lat, longitude := lon, weight := floorsOf f.levels * 10 } :: rest)
        | _ => none
      else parse_geojson_buildings fs
    | _, _ => parse_geojson_buildings fs

/-- The per-feature outcome implicit in the parser's loop body: `some` with
the building point the feature contributes, `none` when the feature is
skipped.  (A kept feature whose coordinates array does not have exactly two
elements also yields `none` here; such a feature makes the whole parse
raise, so it never contributes to a successful output.) -/
def pointOfFeature : Feature → Option BuildingPoint
  | f =>
    let g := f.geometry.getD { type := none, coordinates := none }
    match g.type, g.coordinates with
    | some t, some cs =>
      if t = "Point" then
        match cs with
        | [lon, lat] => some { latitude := lat, longitude := lon, weight := floorsOf f.levels * 10 }
        | _ => none
      else none
    | _, _ => none

/-- Whether the parser's `if` keeps the feature
(`geometry.get('type') == 'Point' and 'coordinates' in geometry`). -/
def keptFeature (f : Feature) : Bool :=
  let g := f.geometry.getD { type := none, coordinates := none }
  g.type == some "Point" && g.coordinates.isSome

/-- True when the pattern occurs starting at the head of the text. -/
def matchesHere : List Char → List Char → Bool
  | [], _ => true
  | _ :: _, [] => false
  | p :: ps, c :: cs => p == c && matchesHere ps cs

/-- True when the pattern occurs somewhere in the text. -/
def occursWithin (pat : List Char) : List Char → Bool
  | [] => matchesHere pat []
  | c :: cs => matchesHere pat (c :: cs) || occursWithin pat cs

/-- Substring containment, as Python's `in` / pandas `.str.contains`
with a plain (non-regex, regex-metacharacter-free) pattern. -/
def strContains (s pat : String) : Bool := occursWithin pat.toList s.toList

/-- Elementwise `series.str.contains(pat, na=False)` on one cell: a missing
value (`NaN`) compares as `False`. -/
def colContains (cell : Option String) (pat : String) : Bool :=
  match cell with
  | none => false
  | some s => strContains s pat

/-- One row of the table returned by the external boundary lookup, projected
to the two columns `get_city_boundary` filters on: `name` and `admin_level`
(both possibly missing, i.e. `NaN`). -/
structure OsmRow where
  name : Option String
  admin_level : Option String
  deriving DecidableEq

/-- The row filter of lines 69-74 of `heatmap.py`: name contains
`Нижний Новгород` or `Nizhny Novgorod`, or `admin_level` equals `'8'` or
`'6'`. -/
def cityRowMatches (r : OsmRow) : Bool :=
  colContains r.name "Нижний Новгород" ||
  colContains r.name "Nizhny Novgorod" ||
  r.admin_level == some "8" ||
  r.admin_level == some "6"

/-- The hardcoded fallback polygon `nizhny_novgorod_bounds`
(lines 82-88 of `heatmap.py`): five `[lat, lon]` corners, closed. -/
def nizhny_novgorod_bounds : List (ℚ × ℚ) :=
  [(56.20, 43.80), (56.20, 44.10), (56.40, 44.10), (56.40, 43.80), (56.20, 43.80)]

/-- The boundary dataset `get_city_boundary` can return: either the
filtered rows of the external lookup, or the manually built one-row
GeoDataFrame with the fallback rectangle. -/
inductive Boundary where
  | osm (rows : List OsmRow)
  | manual (label : String) (poly : List (ℚ × ℚ))
  deriving DecidableEq

/-- Embedding of `get_city_boundary` (lines 60-98 of `heatmap.py`) as a
function of the outcome of the external call
`ox.geometries_from_place(...)`: `Except.error e` is the call raising an
exception with message `e`, `Except.ok rows` is the returned table.
Returns the Python return value together with the lines printed.
The function is total: the `try`/`except` of the source catches every
exception and returns `None` (here `none`). -/
def get_city_boundary (city_name : String) (lookup : Except String (List OsmRow)) :
    Option Boundary × List String :=
  let searching := "🔍 Ищем границы для: " ++ city_name
  match lookup with
  | Except.error e =>
    (none, [searching, "❌ Ошибка при получении границ: " ++ e])
  | Except.ok rows =>
    let polygon_filtered := rows.filter cityRowMatches
    if polygon_filtered.length > 0 then
      (some (Boundary.osm polygon_filtered),
       [searching, "✅ Найдено полигонов: " ++ toString polygon_filtered.length])
    else
      (some (Boundary.manual "Нижний Новгород (ручной)" nizhny_novgorod_bounds),
       [searching, "⚠️ Полигоны не найдены, создаем вручную"])

/-- How an attempt to read one optional CSV ends: Python's
`FileNotFoundError`, any other caught exception (bad delimiter, missing
`lat`/`lon`/`name` columns while building the markers, ...), or a parsed
row list. -/
inductive CsvError where
  | fileNotFound
  | other (msg : String)
  deriving DecidableEq

/-- One row of `branches.csv` / `competitors.csv` as the marker loops read
it: `row['name']`, `row['lat']`, `row['lon']`. -/
structure MarkerRecord where
  name : String
  lat : ℚ
  lon : ℚ
  deriving DecidableEq

/-- The layers the script can attach to the main `folium.Map`, plus the
`LayerControl` widget, identified by where they are created in
`heatmap.py`. -/
inductive Layer where
  | boundary
  | branches
  | competitors
  | heatmap
  | layerControl
  deriving DecidableEq

/-- The heat map configuration object built at lines 140-159 of
`heatmap.py` (`HeatMap(...)`).  `0.4`, `0.3` and the gradient stops are
decimal literals, modelled exactly in `ℚ`. -/
structure HeatMapConfig where
  min_opacity : ℚ
  max_value : ℚ
  radius : ℕ
  blur : ℕ
  max_zoom : ℕ
  gradient : List (ℚ × String)
  deriving DecidableEq

/-- The `HeatMap` constructor call with the script's constants,
as a function of the computed `max_weight`. -/
def hmConfig (max_weight : ℤ) : HeatMapConfig :=
  { min_opacity := 0.3
    max_value := (max_weight : ℚ) * 0.4
    radius := 8
    blur := 10
    max_zoom := 18
    gradient :=
      [(0.1, "blue"), (0.2, "blue"), (0.3, "lime"), (0.4, "lime"),
       (0.5, "yellow"), (0.6, "yellow"), (0.7, "orange"), (0.8, "orange"),
       (0.9, "red"), (1.0, "red")] }

/-- `df_buildings['weight'].max()` (lines 104-105): the maximum of the
weight column, `none` (pandas `NaN`) on an empty list. -/
def max_weight (buildings_data : List BuildingPoint) : Option ℤ :=
  match buildings_data.map (fun b => b.weight) with
  | [] => none
  | w :: ws => some (ws.foldl max w)

/-- The heat map's maximum display value: `max_val=max_weight * 0.4`
(line 143), for a non-empty building list. -/
def hm_max_val (buildings_data : List BuildingPoint) : Option ℚ :=
  (max_weight buildings_data).map (fun m => (hmConfig m).max_value)

/-- The environment the script runs in, after `parse_geojson_buildings`
succeeded: the parsed buildings, the outcome of the external boundary
lookup, and the outcomes of reading the two optional CSVs.  (A failing
`json.load`/`open` of `data/houses.geojson` aborts the script before any
of the modelled steps — the spec's only fatal path.) -/
structure Env where
  buildings : List BuildingPoint
  lookup : Except String (List OsmRow)
  branches : Except CsvError (List MarkerRecord)
  competitors : Except CsvError (List MarkerRecord)

/-- Observable result of a script run: layers attached to the main map in
attachment order (`LayerControl` included), the HTML files written in
order, and the console lines. -/
structure ScriptResult where
  layers : List Layer
  outputs : List String
  console : List String
  deriving DecidableEq

/-- The notice printed by the branch-marker `except` arms
(lines 181-184 of `heatmap.py`). -/
def branchNotice : CsvError → String
  | CsvError.fileNotFound => "⚠️ Файл branches.csv не найден"
  | CsvError.other e => "❌ Ошибка при загрузке филиалов: " ++ e

/-- The notice printed by the competitor-marker `except` arms
(lines 200-203 of `heatmap.py`). -/
def competitorNotice : CsvError → String
  | CsvError.fileNotFound => "⚠️ Файл competitors.csv не найден"
  | CsvError.other e => "❌ Ошибка при загрузке конкурентов: " ++ e

/-- Embedding of the script body of `heatmap.py` (lines 100-220), step by
step in source order, as a function of the environment:

* lines 103-108: `max_weight` and the two count prints;
* line 112: `get_city_boundary` (its prints included);
* lines 115-135: the main map; the boundary `FeatureGroup` is attached
  only when `city_boundary is not None`;
* lines 138-161: the heat map `FeatureGroup` is built (not yet attached);
* lines 164-184: `branches.csv` — on success the branch `FeatureGroup`
  is attached, on any exception only a notice is printed;
* lines 187-203: `competitors.csv`, likewise;
* line 206: the heat map layer is attached;
* line 209: `LayerControl` is attached;
* line 212: `index.html` is written;
* lines 216-220: only when `city_boundary is not None`,
  `city_boundary.html` is written.

The function is total: no exception escapes the modelled run. -/
def runScript (env : Env) : ScriptResult :=
  let mw := max_weight env.buildings
  let mwLine :=
    match mw with
    | some m => toString m
    | none => "nan"
  let gcb := get_city_boundary "Нижний Новгород, Россия" env.lookup
  let city_boundary := gcb.1
  let console0 :=
    ["📊 Обработано зданий: " ++ toString env.buildings.length,
     "📈 Максимальный вес: " ++ mwLine,
     "🗺️ Получаем границы города..."] ++ gcb.2
  let layers0 : List Layer := []
  let (layers1, console1) :=
    match city_boundary with
    | some _ => (layers0 ++ [Layer.boundary], console0 ++ ["✅ Границы города добавлены на карту"])
    | none => (layers0, console0)
  let (layers2, console2) :=
    match env.branches with
    | Except.ok _ => (layers1 ++ [Layer.branches], console1 ++ ["✅ Филиалы добавлены на карту"])
    | Except.error e => (layers1, console1 ++ [branchNotice e])
  let (layers3, console3) :=
    match env.competitors with
    | Except.ok _ => (layers2 ++ [Layer.competitors], console2 ++ ["✅ Конкуренты добавлены на карту"])
    | Except.error e => (layers2, console2 ++ [competitorNotice e])
  let layers4 := layers3 ++ [Layer.heatmap]
  let layers5 := layers4 ++ [Layer.layerControl]
  let console4 := console3 ++ ["✅ Чувствительная карта сохранена как index.html"]
  let (outs, console5) :=
    match city_boundary with
    | some _ =>
      (["index.html", "city_boundary.html"],
       console4 ++ ["🔍 Показываем границы города...", "✅ Карта границ сохранена как city_boundary.html"])
    | none => (["index.html"], console4)
  { layers := layers5, outputs := outs, console := console5 }

/-- A well-formed Point feature with the given `building:levels` value and
GeoJSON `[lon, lat]` coordinates. -/
def pointFeature (v : Option JVal) (lon lat : ℚ) : Feature :=
  { levels := v, geometry := some { type := some "Point", coordinates := some [lon, lat] } }

/-- A feature whose geometry has type `Point` but no `coordinates` key:
present in the model because the parser's guard also tests
`'coordinates' in geometry`. -/
def pointNoCoords : Feature :=
  { levels := none, geometry := some { type := some "Point", coordinates := none } }

/-- A Point feature carrying a 3-element `[lon, lat, altitude]`
coordinates array. -/
def point3d : Feature :=
  { levels := none
    geometry := some { type := some "Point", coordinates := some [44.0, 56.3, 160.0] } }

/-- Modelled from the claim's words (for comparison with the source
behaviour, not from the source): a feature is claim-excluded when its
"geometry is missing or its geometry type is not Point". -/
def claimExcluded (f : Feature) : Bool :=
  match f.geometry with
  | none => true
  | some g => !(g.type == some "Point")

/-- The precondition under which the parser cannot raise: every geometry of
type `Point` that has a `coordinates` key has exactly two coordinates. -/
def coordsOk (f : Feature) : Bool :=
  match f.geometry with
  | none => true
  | some g =>
    match g.type, g.coordinates with
    | some t, some cs => if t = "Point" then cs.length == 2 else true
    | _, _ => true

/-- A concrete two-building list whose maximum weight is 30. -/
def twoBuildings : List BuildingPoint :=
  [{ latitude := 56.3, longitude := 44.0, weight := 10 },
   { latitude := 56.35, longitude := 44.1, weight := 30 }]

/-- A concrete environment in which every external input fails:
the lookup raises and both CSV files are absent. -/
def envAllFail : Env :=
  { buildings := []
    lookup := Except.error "err"
    branches := Except.error CsvError.fileNotFound
    competitors := Except.error CsvError.fileNotFound }

/-- A concrete environment in which every optional input resolves:
used to exhibit the actual layer order. -/
def envAllOk : Env :=
  { buildings := [{ latitude := 56.3, longitude := 44.0, weight := 10 }]
    lookup := Except.ok [{ name := some "Нижний Новгород", admin_level := some "8" }]
    branches := Except.ok [{ name := "Отделение 1", lat := 56.3, lon := 44.0 }]
    competitors := Except.ok [{ name := "Банк 1", lat := 56.31, lon := 44.01 }] }

/-! ## Structural lemmas about the parser -/

theorem parse_cons (f : Feature) (fs : List Feature) :
    parse_geojson_buildings (f :: fs) =
      match pointOfFeature f with
      | some p => (parse_geojson_buildings fs).map (fun rest => p :: rest)
      | none => if keptFeature f then none else parse_geojson_buildings fs := by
  cases hg : f.geometry with
  | none => simp [parse_geojson_buildings, pointOfFeature, keptFeature, hg]
  | some g =>
    cases ht : g.type with
    | none => simp [parse_geojson_buildings, pointOfFeature, keptFeature, hg, ht]
    | some t =>
      cases hc : g.coordinates with
      | none => simp [parse_geojson_buildings, pointOfFeature, keptFeature, hg, ht, hc]
      | some cs =>
        by_cases hpt : t = "Point"
        · subst hpt
          match cs with
          | [] => simp [parse_geojson_buildings, pointOfFeature, keptFeature, hg, ht, hc]
          | [a] => simp [parse_geojson_buildings, pointOfFeature, keptFeature, hg, ht, hc]
          | [lon, lat] => simp [parse_geojson_buildings, pointOfFeature, keptFeature, hg, ht, hc]
          | a :: b :: c :: rest => simp [parse_geojson_buildings, pointOfFeature, keptFeature, hg, ht, hc]
        · simp [parse_geojson_buildings, pointOfFeature, keptFeature, hg, ht, hc, hpt]

theorem pointOfFeature_isSome_kept {f : Feature} {p : BuildingPoint}
    (h : pointOfFeature f = some p) : keptFeature f = true := by
  cases hg : f.geometry with
  | none => simp [pointOfFeature, hg] at h
  | some g =>
    cases ht : g.type with
    | none => simp [pointOfFeature, hg, ht] at h
    | some t =>
      cases hc : g.coordinates with
      | none => simp [pointOfFeature, hg, ht, hc] at h
      | some cs => simp [keptFeature, hg, ht, hc]; by_cases hpt : t = "Point" <;>
        simp [pointOfFeature, hg, ht, hc, hpt] at h ⊢

theorem pointOfFeature_weight {f : Feature} {p : BuildingPoint}
    (h : pointOfFeature f = some p) : p.weight = floorsOf f.levels * 10 := by
  cases hg : f.geometry with
  | none => simp [pointOfFeature, hg] at h
  | some g =>
    cases ht : g.type with
    | none => simp [pointOfFeature, hg, ht] at h
    | some t =>
      cases hc : g.coordinates with
      | none => simp [pointOfFeature, hg, ht, hc] at h
      | some cs =>
        by_cases hpt : t = "Point"
        · subst hpt
          match cs with
          | [] => simp [pointOfFeature, hg, ht, hc] at h
          | [a] => simp [pointOfFeature, hg, ht, hc] at h
          | [lon, lat] =>
            simp [pointOfFeature, hg, ht, hc] at h
            rw [← h]
          | a :: b :: c :: rest => simp [pointOfFeature, hg, ht, hc] at h
        · simp [pointOfFeature, hg, ht, hc, hpt] at h

/-- When the parser completes without raising, the output is exactly the
per-feature map over the input, in input order. -/
theorem parse_eq_filterMap {fs : List Feature} {out : List BuildingPoint}
    (h : parse_geojson_buildings fs = some out) :
    out = fs.filterMap pointOfFeature := by
  induction fs generalizing out with
  | nil => simp [parse_geojson_buildings] at h; simp [h]
  | cons f fs ih =>
    rw [parse_cons] at h
    cases hp : pointOfFeature f with
    | some p =>
      rw [hp] at h
      cases hrec : parse_geojson_buildings fs with
      | none => rw [hrec] at h; simp at h
      | some rest =>
        rw [hrec] at h
        simp at h
        simp [List.filterMap_cons, hp, ← h, ih hrec]
    | none =>
      rw [hp] at h
      by_cases hk : keptFeature f
      · simp [hk] at h
      · simp [hk] at h
        simp [List.filterMap_cons, hp, ih h]

/-- When the parser completes without raising, the number of produced
points plus the number of skipped features equals the number of input
features. -/
theorem parse_length {fs : List Feature} {out : List BuildingPoint}
    (h : parse_geojson_buildings fs = some out) :
    out.length + (fs.filter (fun f => !keptFeature f)).length = fs.length := by
  induction fs generalizing out with
  | nil => simp [parse_geojson_buildings] at h; simp [h]
  | cons f fs ih =>
    rw [parse_cons] at h
    cases hp : pointOfFeature f with
    | some p =>
      rw [hp] at h
      cases hrec : parse_geojson_buildings fs with
      | none => rw [hrec] at h; simp at h
      | some rest =>
        rw [hrec] at h
        simp at h
        have hk := pointOfFeature_isSome_kept hp
        have := ih hrec
        simp [← h, List.filter_cons, hk]
        omega
    | none =>
      rw [hp] at h
      by_cases hk : keptFeature f
      · simp [hk] at h
      · simp [hk] at h
        have := ih h
        simp [List.filter_cons, hk]
        omega

/-- Under the two-coordinate precondition the parser never raises. -/
theorem parse_total {fs : List Feature}
    (h : ∀ f ∈ fs, coordsOk f = true) :
    (parse_geojson_buildings fs).isSome = true := by
  induction fs with
  | nil => simp [parse_geojson_buildings]
  | cons f fs ih =>
    have hf : coordsOk f = true := h f (List.mem_cons_self f fs)
    have hrest : (parse_geojson_buildings fs).isSome = true :=
      ih (fun x hx => h x (List.mem_cons_of_mem f hx))
    rw [parse_cons]
    cases hp : pointOfFeature f with
    | some p => simp [Option.isSome_map, hrest]
    | none =>
      by_cases hk : keptFeature f
      · exfalso
        cases hg : f.geometry with
        | none => simp [keptFeature, hg] at hk
        | some g =>
          cases ht : g.type with
          | none => simp [keptFeature, hg, ht] at hk
          | some t =>
            cases hc : g.coordinates with
            | none => simp [keptFeature, hg, ht, hc] at hk
            | some cs =>
              simp [keptFeature, hg, ht, hc] at hk
              subst hk
              have hlen : cs.length = 2 := by
                simpa [coordsOk, hg, ht, hc] using hf
              match cs, hlen with
              | [lon, lat], _ => simp [pointOfFeature, hg, ht, hc] at hp
      · simp [hk, hrest]

/-! ## Lemmas about the column maximum -/

theorem le_foldl_max (l : List ℤ) (a : ℤ) : a ≤ l.foldl max a := by
  induction l generalizing a with
  | nil => exact le_refl a
  | cons x l ih => exact le_trans (le_max_left a x) (ih (max a x))

theorem mem_le_foldl_max {x : ℤ} (l : List ℤ) (a : ℤ) (h : x ∈ l) :
    x ≤ l.foldl max a := by
  induction l generalizing a with
  | nil => cases h
  | cons y l ih =>
    rcases List.mem_cons.mp h with rfl | hmem
    · exact le_trans (le_max_right a x) (le_foldl_max l (max a x))
    · exact ih (max a y) hmem

theorem foldl_max_le {c : ℤ} (l : List ℤ) (a : ℤ) (ha : a ≤ c)
    (h : ∀ x ∈ l, x ≤ c) : l.foldl max a ≤ c := by
  induction l generalizing a with
  | nil => exact ha
  | cons x l ih =>
    exact ih (max a x) (max_le ha (h x (List.mem_cons_self x l)))
      (fun y hy => h y (List.mem_cons_of_mem x hy))

theorem foldl_max_mem (l : List ℤ) (a : ℤ) :
    l.foldl max a = a ∨ l.foldl max a ∈ l := by
  induction l generalizing a with
  | nil => exact Or.inl rfl
  | cons x l ih =>
    rcases ih (max a x) with heq | hmem
    · rcases max_choice a x with hax | hax
      · exact Or.inl (by rw [List.foldl_cons, heq, hax])
      · exact Or.inr (by rw [List.foldl_cons, heq, hax]; exact List.mem_cons_self x l)
    · exact Or.inr (List.mem_cons_of_mem x hmem)

/-- Characterisation of `max_weight`: when it returns `some m`, `m` is an
attained upper bound of the weights. -/
theorem max_weight_spec {bs : List BuildingPoint} {m : ℤ}
    (h : max_weight bs = some m) :
    (∃ b ∈ bs, b.weight = m) ∧ ∀ b ∈ bs, b.weight ≤ m := by
  cases bs with
  | nil => simp [max_weight] at h
  | cons b bs =>
    simp only [max_weight, List.map_cons, Option.some.injEq] at h
    constructor
    · rcases foldl_max_mem (bs.map (fun b => b.weight)) b.weight with heq | hmem
      · exact ⟨b, List.mem_cons_self b bs, by rw [← h, heq]⟩
      · rcases List.mem_map.mp hmem with ⟨b', hb', hw⟩
        exact ⟨b', List.mem_cons_of_mem b hb', by rw [hw, h]⟩
    · intro b' hb'
      rcases List.mem_cons.mp hb' with rfl | hmem
      · rw [← h]; exact le_foldl_max _ _
      · rw [← h]
        exact mem_le_foldl_max _ _ (List.mem_map.mpr ⟨b', hmem, rfl⟩)

/-- Conversely, an attained upper bound of the weights is the value of
`max_weight`. -/
theorem max_weight_eq {bs : List BuildingPoint} {m : ℤ}
    (hmem : ∃ b ∈ bs, b.weight = m) (hub : ∀ b ∈ bs, b.weight ≤ m) :
    max_weight bs = some m := by
  cases bs with
  | nil => rcases hmem with ⟨b, hb, _⟩; cases hb
  | cons b bs =>
    simp only [max_weight, List.map_cons, Option.some.injEq]
    apply le_antisymm
    · exact foldl_max_le _ _ (hub b (List.mem_cons_self b bs))
        (fun x hx => by
          rcases List.mem_map.mp hx with ⟨b', hb', rfl⟩
          exact hub b' (List.mem_cons_of_mem b hb'))
    · rcases hmem with ⟨b', hb', hw⟩
      rcases List.mem_cons.mp hb' with rfl | hmem'
      · rw [← hw]; exact le_foldl_max _ _
      · rw [← hw]
        exact mem_le_foldl_max _ _ (List.mem_map.mpr ⟨b', hmem', rfl⟩)

/-! ## Lemmas about the script pipeline -/

theorem runScript_layers (env : Env) :
    (runScript env).layers =
      (match (get_city_boundary "Нижний Новгород, Россия" env.lookup).1 with
       | some _ => [Layer.boundary]
       | none => []) ++
      (match env.branches with
       | Except.ok _ => [Layer.branches]
       | Except.error _ => []) ++
      (match env.competitors with
       | Except.ok _ => [Layer.competitors]
       | Except.error _ => []) ++
      [Layer.heatmap, Layer.layerControl] := by
  cases hcb : (get_city_boundary "Нижний Новгород, Россия" env.lookup).1 <;>
    cases hbr : env.branches <;>
      cases hcomp : env.competitors <;>
        simp [runScript, hcb, hbr, hcomp]

theorem runScript_outputs (env : Env) :
    (runScript env).outputs =
      match (get_city_boundary "Нижний Новгород, Россия" env.lookup).1 with
      | some _ => ["index.html", "city_boundary.html"]
      | none => ["index.html"] := by
  cases hcb : (get_city_boundary "Нижний Новгород, Россия" env.lookup).1 <;>
    cases hbr : env.branches <;>
      cases hcomp : env.competitors <;>
        simp [runScript, hcb, hbr, hcomp]

theorem runScript_branch_notice {env : Env} {e : CsvError}
    (h : env.branches = Except.error e) :
    branchNotice e ∈ (runScript env).console := by
  cases hcb : (get_city_boundary "Нижний Новгород, Россия" env.lookup).1 <;>
    cases hcomp : env.competitors <;>
      simp [runScript, hcb, h, hcomp]

/-! ## Claim theorems -/

/-- C1, counterexample: when the external lookup raises,
`get_city_boundary` returns `None`, which is not the fallback rectangle
returned for an empty lookup, so the claim "if the external service raises
an exception, `get_city_boundary` returns the fixed 5-point fallback
rectangle (the same result as an empty lookup)" is false. -/
theorem c1_exception_fallback_counterexample :
    (get_city_boundary "Нижний Новгород, Россия" (Except.error "connection error")).1 = none ∧
    (get_city_boundary "Нижний Новгород, Россия" (Except.ok [])).1 =
      some (Boundary.manual "Нижний Новгород (ручной)" nizhny_novgorod_bounds) ∧
    (none : Option Boundary) ≠
      some (Boundary.manual "Нижний Новгород (ручной)" nizhny_novgorod_bounds) := by
  refine ⟨rfl, rfl, by simp⟩

/-- C1, amended: when the external lookup raises, `get_city_boundary`
catches the exception (the embedded function is total), logs it, and
returns `None` — not the fallback rectangle; the fallback rectangle is
returned exactly when the lookup succeeds but no row passes the filter. -/
theorem c1_exception_returns_none (city_name e : String) :
    (get_city_boundary city_name (Except.error e)).1 = none ∧
    ("❌ Ошибка при получении границ: " ++ e) ∈ (get_city_boundary city_name (Except.error e)).2 ∧
    ∀ rows : List OsmRow,
      ((get_city_boundary city_name (Except.ok rows)).1 =
        some (Boundary.manual "Нижний Новгород (ручной)" nizhny_novgorod_bounds) ↔
        rows.filter cityRowMatches = []) := by
  refine ⟨rfl, by simp [get_city_boundary], ?_⟩
  intro rows
  cases hfl : rows.filter cityRowMatches with
  | nil => simp [get_city_boundary, hfl]
  | cons r rs => simp [get_city_boundary, hfl]

/-- C2: when the boundary lookup raises, the script does not write
`city_boundary.html`, still writes `index.html`, and attaches no boundary
layer to the map. -/
theorem c2_no_boundary_on_exception (env : Env) (e : String)
    (h : env.lookup = Except.error e) :
    "city_boundary.html" ∉ (runScript env).outputs ∧
    "index.html" ∈ (runScript env).outputs ∧
    Layer.boundary ∉ (runScript env).layers := by
  have hcb : (get_city_boundary "Нижний Новгород, Россия" env.lookup).1 = none := by
    rw [h]; rfl
  refine ⟨?_, ?_, ?_⟩
  · rw [runScript_outputs, hcb]
    simp
  · rw [runScript_outputs, hcb]
    simp
  · rw [runScript_layers, hcb]
    cases env.branches <;> cases env.competitors <;> simp

/-- C2, witness at a concrete failing environment. -/
theorem c2_witness :
    "city_boundary.html" ∉ (runScript envAllFail).outputs ∧
    "index.html" ∈ (runScript envAllFail).outputs ∧
    Layer.boundary ∉ (runScript envAllFail).layers :=
  c2_no_boundary_on_exception envAllFail "err" rfl

/-- C9: when reading `data/branches.csv` fails — file absent, or any other
read or parse error — the branch-marker layer is not attached, the matching
notice is printed, and the run still completes and writes `index.html`
(the embedded script is a total function, i.e. no exception escapes). -/
theorem c9_branches_skip (env : Env) (e : CsvError)
    (h : env.branches = Except.error e) :
    Layer.branches ∉ (runScript env).layers ∧
    branchNotice e ∈ (runScript env).console ∧
    "index.html" ∈ (runScript env).outputs := by
  refine ⟨?_, runScript_branch_notice h, ?_⟩
  · rw [runScript_layers, h]
    cases (get_city_boundary "Нижний Новгород, Россия" env.lookup).1 <;>
      cases env.competitors <;> simp
  · rw [runScript_outputs]
    cases (get_city_boundary "Нижний Новгород, Россия" env.lookup).1 <;> simp

/-- C9, witness at a concrete environment with the branches file absent. -/
theorem c9_witness :
    Layer.branches ∉ (runScript envAllFail).layers ∧
    branchNotice CsvError.fileNotFound ∈ (runScript envAllFail).console ∧
    "index.html" ∈ (runScript envAllFail).outputs :=
  c9_branches_skip envAllFail CsvError.fileNotFound rfl

/-- C5, counterexample: in a run where the boundary resolves and both CSVs
parse, the layers are attached in the order boundary, branches,
competitors, heatmap, layer control — not in the claimed order boundary,
heatmap, branches, competitors (the script attaches the heat-map layer at
line 206, after both marker blocks). -/
theorem c5_layer_order_counterexample :
    (runScript envAllOk).layers =
      [Layer.boundary, Layer.branches, Layer.competitors, Layer.heatmap, Layer.layerControl] ∧
    (runScript envAllOk).layers ≠
      [Layer.boundary, Layer.heatmap, Layer.branches, Layer.competitors, Layer.layerControl] := by
  have h1 : (runScript envAllOk).layers =
      [Layer.boundary, Layer.branches, Layer.competitors, Layer.heatmap, Layer.layerControl] := by
    rw [runScript_layers]; rfl
  exact ⟨h1, by rw [h1]; decide⟩

/-- C5, amended: layers are attached in the order boundary layer (when
resolved), branch markers (when the CSV parses), competitor markers (when
the CSV parses), then the heatmap layer (always), and the layer-control UI
is attached after all layers. -/
theorem c5_layer_order (env : Env) :
    (runScript env).layers =
      (match (get_city_boundary "Нижний Новгород, Россия" env.lookup).1 with
       | some _ => [Layer.boundary]
       | none => []) ++
      (match env.branches with
       | Except.ok _ => [Layer.branches]
       | Except.error _ => []) ++
      (match env.competitors with
       | Except.ok _ => [Layer.competitors]
       | Except.error _ => []) ++
      [Layer.heatmap, Layer.layerControl] ∧
    (runScript env).layers.getLast? = some Layer.layerControl := by
  refine ⟨runScript_layers env, ?_⟩
  rw [runScript_layers]
  cases (get_city_boundary "Нижний Новгород, Россия" env.lookup).1 <;>
    cases env.branches <;> cases env.competitors <;> rfl

/-- The parse of a single well-formed Point feature. -/
theorem parse_pointFeature (v : Option JVal) (lon lat : ℚ) :
    parse_geojson_buildings [pointFeature v lon lat] =
      some [{ latitude := lat, longitude := lon, weight := floorsOf v * 10 }] := by
  simp [parse_geojson_buildings, pointFeature]

/-- C3, counterexample: the JSON number `0` is parseable as the integer 0,
but it is falsy, so the parser defaults the floor count to 1 and produces
weight 10 rather than the claimed `10 × 0 = 0`. -/
theorem c3_levels_zero_counterexample :
    pyInt (JVal.jnum 0) = some 0 ∧
    parse_geojson_buildings [pointFeature (some (JVal.jnum 0)) 44.005 56.326] =
      some [{ latitude := 56.326, longitude := 44.005, weight := 10 }] ∧
    (10 : ℤ) ≠ 10 * 0 := by
  refine ⟨rfl, ?_, by decide⟩
  rw [parse_pointFeature]
  rfl

/-- C3, amended: for a Point feature, a truthy `building:levels` value that
`int()` converts to `N` yields weight `10 × N`; a missing, falsy (`0`,
`0.0`, `false`, `""`), or truthy-but-unconvertible value yields weight 10. -/
theorem c3_weight_rule (v : Option JVal) (lon lat : ℚ) :
    (v = none →
      parse_geojson_buildings [pointFeature v lon lat] =
        some [{ latitude := lat, longitude := lon, weight := 10 }]) ∧
    (∀ w, v = some w → pyTruthy w = false →
      parse_geojson_buildings [pointFeature v lon lat] =
        some [{ latitude := lat, longitude := lon, weight := 10 }]) ∧
    (∀ w, v = some w → pyTruthy w = true → pyInt w = none →
      parse_geojson_buildings [pointFeature v lon lat] =
        some [{ latitude := lat, longitude := lon, weight := 10 }]) ∧
    (∀ w n, v = some w → pyTruthy w = true → pyInt w = some n →
      parse_geojson_buildings [pointFeature v lon lat] =
        some [{ latitude := lat, longitude := lon, weight := n * 10 }]) := by
  refine ⟨?_, ?_, ?_, ?_⟩
  · rintro rfl
    rw [parse_pointFeature]
    rfl
  · rintro w rfl hw
    rw [parse_pointFeature]
    simp [floorsOf, hw]
  · rintro w rfl hw hint
    rw [parse_pointFeature]
    simp [floorsOf, hw, hint]
  · rintro w n rfl hw hint
    rw [parse_pointFeature]
    simp [floorsOf, hw, hint]

/-- C3, witness: `building:levels = "3"` gives weight 30. -/
theorem c3_witness :
    parse_geojson_buildings [pointFeature (some (JVal.jstr "3")) 44.005 56.326] =
      some [{ latitude := 56.326, longitude := 44.005, weight := 3 * 10 }] :=
  (c3_weight_rule (some (JVal.jstr "3")) 44.005 56.326).2.2.2 (JVal.jstr "3") 3
    rfl (by decide) (by decide)

/-- C4, counterexample: `building:levels = "0"` is truthy and converts to
0, so the produced weight is 0, violating the claimed invariant
`weight ≥ 10`. -/
theorem c4_weight_ge_ten_counterexample :
    parse_geojson_buildings [pointFeature (some (JVal.jstr "0")) 44.005 56.326] =
      some [{ latitude := 56.326, longitude := 44.005, weight := 0 }] ∧
    ¬(10 ≤ (0 : ℤ)) := by
  refine ⟨?_, by decide⟩
  rw [parse_pointFeature]
  norm_num [floorsOf]
  decide

/-- C4, amended: every produced weight is an integer multiple of 10, and a
weight below 10 is possible only when `building:levels` converts to a
non-positive integer, in which case the weight is ≤ 0; in every other case
the invariant `weight ≥ 10` holds. -/
theorem c4_weight_structure (fs : List Feature) (out : List BuildingPoint)
    (h : parse_geojson_buildings fs = some out) :
    ∀ p ∈ out, (∃ k : ℤ, p.weight = k * 10) ∧ (p.weight < 10 → p.weight ≤ 0) := by
  intro p hp
  rw [parse_eq_filterMap h] at hp
  rcases List.mem_filterMap.mp hp with ⟨f, _, hf⟩
  have hw := pointOfFeature_weight hf
  refine ⟨⟨floorsOf f.levels, hw⟩, ?_⟩
  intro hlt
  omega

/-- C4, witness: a default-weight building satisfies both parts. -/
theorem c4_witness :
    (∃ k : ℤ, (10 : ℤ) = k * 10) ∧ ((10 : ℤ) < 10 → (10 : ℤ) ≤ 0) :=
  c4_weight_structure [pointFeature none 44.005 56.326]
    [{ latitude := 56.326, longitude := 44.005, weight := 10 }]
    (by rw [parse_pointFeature]; rfl)
    { latitude := 56.326, longitude := 44.005, weight := 10 }
    (List.mem_singleton.mpr rfl)

/-- A claim-excluded feature (missing geometry or non-Point type) is never
kept by the parser's guard. -/
theorem claimExcluded_not_kept {f : Feature} (h : claimExcluded f = true) :
    keptFeature f = false := by
  cases hg : f.geometry with
  | none => simp [keptFeature, hg]
  | some g =>
    simp [claimExcluded, hg] at h
    simp [keptFeature, hg, h]

/-- C7, counterexample: a feature whose geometry has type `Point` but no
`coordinates` key is skipped by the parser although it is not excluded by
the claim's description, so the claimed length equation fails. -/
theorem c7_excluded_count_counterexample :
    parse_geojson_buildings [pointNoCoords] = some [] ∧
    ([pointNoCoords].filter claimExcluded).length = 0 ∧
    ¬(([] : List BuildingPoint).length =
        [pointNoCoords].length - ([pointNoCoords].filter claimExcluded).length) := by
  refine ⟨rfl, by decide, by decide⟩

/-- C7, amended: every claim-excluded feature (missing geometry or
non-Point type) is indeed skipped, but the parser's skip predicate also
drops Point geometries without a `coordinates` key; whenever the parse
completes, the output length equals the number of features minus the
number of features skipped by that predicate. -/
theorem c7_skip_length (fs : List Feature) (out : List BuildingPoint)
    (h : parse_geojson_buildings fs = some out) :
    (∀ f ∈ fs, claimExcluded f = true → keptFeature f = false) ∧
    out.length + (fs.filter (fun f => !keptFeature f)).length = fs.length :=
  ⟨fun _ _ hf => claimExcluded_not_kept hf, parse_length h⟩

/-- C7, witness at a concrete skipped feature. -/
theorem c7_witness :
    ([] : List BuildingPoint).length +
      ([pointNoCoords].filter (fun f => !keptFeature f)).length = [pointNoCoords].length :=
  (c7_skip_length [pointNoCoords] [] rfl).2

/-- C8: whenever the parse completes, the output is the per-feature map
over the input in input order, and on a Point feature with GeoJSON
`[lon, lat]` coordinates that map swaps the pair, producing
`[lat, lon, weight]`. -/
theorem c8_order_and_swap (fs : List Feature) (out : List BuildingPoint)
    (h : parse_geojson_buildings fs = some out) :
    out = fs.filterMap pointOfFeature ∧
    ∀ (v : Option JVal) (lon lat : ℚ),
      pointOfFeature (pointFeature v lon lat) =
        some { latitude := lat, longitude := lon, weight := floorsOf v * 10 } :=
  ⟨parse_eq_filterMap h, fun v lon lat => by simp [pointOfFeature, pointFeature]⟩

/-- C8, witness: two features parsed in order, coordinates swapped. -/
theorem c8_witness :
    [({ latitude := 56.3, longitude := 44.0, weight := 10 } : BuildingPoint),
     { latitude := 56.4, longitude := 44.1, weight := 10 }] =
      [pointFeature none 44.0 56.3, pointFeature none 44.1 56.4].filterMap pointOfFeature :=
  (c8_order_and_swap [pointFeature none 44.0 56.3, pointFeature none 44.1 56.4] _
    (by rw [parse_geojson_buildings]; rfl)).1

/-- C10: a Point feature with a 3-element coordinates array makes the
parser raise (the tuple unpacking fails), and under the precondition that
every kept Point feature has exactly two coordinates the parser is total. -/
theorem c10_coords_arity :
    parse_geojson_buildings [point3d] = none ∧
    ∀ fs : List Feature, (∀ f ∈ fs, coordsOk f = true) →
      (parse_geojson_buildings fs).isSome = true :=
  ⟨rfl, fun _ h => parse_total h⟩

/-- C10, witness: the totality part at a concrete well-formed input. -/
theorem c10_witness :
    (parse_geojson_buildings [pointFeature none 44.0 56.3]).isSome = true :=
  c10_coords_arity.2 [pointFeature none 44.0 56.3] (by decide)

/-- C6: for every non-empty building list the column maximum exists; it is
an attained upper bound `m` of the weights, the heat map maximum display
value is exactly `m * 0.4`, and multiplying the weight of a
maximum-weight building by a factor `c` — provided the scaled building is
still the maximum — multiplies the display value by `c`. -/
theorem c6_heatmap_max_display (bs : List BuildingPoint) (m : ℤ) :
    (bs ≠ [] → (max_weight bs).isSome = true) ∧
    (max_weight bs = some m →
      (∃ b ∈ bs, b.weight = m) ∧ (∀ b ∈ bs, b.weight ≤ m) ∧
      hm_max_val bs = some ((m : ℚ) * 0.4) ∧
      ∀ (c : ℤ) (b : BuildingPoint) (pre post : List BuildingPoint),
        bs = pre ++ b :: post → b.weight = m →
        (∀ x ∈ pre ++ post, x.weight ≤ c * m) →
        hm_max_val (pre ++ { b with weight := c * b.weight } :: post) =
          some ((c : ℚ) * ((m : ℚ) * 0.4))) := by
  constructor
  · intro hne
    cases bs with
    | nil => exact absurd rfl hne
    | cons b bs => simp [max_weight]
  · intro hmax
    obtain ⟨hmem, hub⟩ := max_weight_spec hmax
    refine ⟨hmem, hub, ?_, ?_⟩
    · simp [hm_max_val, hmConfig, hmax]
    · intro c b pre post hsplit hbm hx
      have hnew : max_weight (pre ++ { b with weight := c * b.weight } :: post) =
          some (c * m) := by
        apply max_weight_eq
        · exact ⟨{ b with weight := c * b.weight },
            List.mem_append.mpr (Or.inr (List.mem_cons_self _ _)), by simp [hbm]⟩
        · intro x hx'
          rcases List.mem_append.mp hx' with hpre | hmid
          · exact hx x (List.mem_append.mpr (Or.inl hpre))
          · rcases List.mem_cons.mp hmid with rfl | hpost
            · simp [hbm]
            · exact hx x (List.mem_append.mpr (Or.inr hpost))
      simp only [hm_max_val, hmConfig, hnew, Option.map_some']
      congr 1
      push_cast
      ring

/-- C6, witness: maximum weight 30 gives display value 12; doubling the
maximum building's weight gives display value 24. -/
theorem c6_witness :
    (max_weight twoBuildings).isSome = true ∧
    hm_max_val twoBuildings = some ((30 : ℚ) * 0.4) ∧
    hm_max_val [{ latitude := 56.3, longitude := 44.0, weight := 10 },
                { latitude := 56.35, longitude := 44.1, weight := 2 * 30 }] =
      some ((2 : ℚ) * ((30 : ℚ) * 0.4)) := by
  have h := c6_heatmap_max_display twoBuildings 30
  have hmax : max_weight twoBuildings = some 30 := by decide
  refine ⟨h.1 (by decide), (h.2 hmax).2.2.1, ?_⟩
  have h3 := (h.2 hmax).2.2.2 2 { latitude := 56.35, longitude := 44.1, weight := 30 }
    [{ latitude := 56.3, longitude := 44.0, weight := 10 }] [] rfl rfl (by decide)
  simpa using h3

end Heatmap
